import Mathlib

/-!
Verification of the STT media-processing pipeline (core/tasks.py,
core/services.py, core/task_monitor.py) against its specification.

The Python source is shallowly embedded: pure computations become Lean
functions; the effect of HTTP calls, the filesystem and the process
environment is passed in explicitly as oracle data; a raised Python
exception is an `Except.error`; Django model rows become records.
-/

set_option maxRecDepth 4000

namespace STT

/-- `AudioFile.Status` (core/models.py). -/
inductive Status where
  | uploading
  | pending
  | processing
  | completed
  | failed
deriving DecidableEq, BEq

/-- `AudioFile.ModelChoices` (core/models.py). -/
inductive ModelChoice where
  | eboo
  | vira
  | scribe
deriving DecidableEq, BEq

/-- The fields of an `AudioFile` row that the pipeline reads or writes. -/
structure Job where
  id : Nat
  userId : Nat
  status : Status
  taskId : Option String := none
  modelName : Option ModelChoice := none
  transcriptText : Option String := none
  summaryText : Option String := none
  showSummary : Bool := false
  errorMessage : Option String := none
  createdAt : Nat := 0
deriving DecidableEq

/-- Python truthiness on an optional string: `None` and `""` are falsy.
Used wherever the source writes `x or y` / `if not x` on strings. -/
def pyStr (o : Option String) : Option String :=
  match o with
  | some s => if s = "" then none else some s
  | none => none

/-- Python `a or b` on two optional strings (`""` falls through). -/
def pyOr (a b : Option String) : Option String :=
  match pyStr a with
  | some s => some s
  | none => pyStr b

/-- Python `str.strip()`: drop leading and trailing whitespace.  (Stated
over the character list so that it evaluates inside the kernel.) -/
def pyStrip (s : String) : String :=
  (((s.data.dropWhile Char.isWhitespace).reverse.dropWhile
    Char.isWhitespace).reverse).asString

/-- The `HUMAN_ERRORS` table of core/tasks.py (the entries the pipeline uses). -/
def humanErrVideo : String := "خطا در استخراج صدا از فایل ویدیویی."
def humanErrEmpty : String := "متنی از فایل استخراج نشد."
def humanErrUnknown : String := "خطای نامشخص در پردازش فایل."
def downloadFailMsg : String := "دانلود فایل از لینک ناموفق بود."
def noSourceMsg : String := "هیچ منبع فایلی یافت نشد."
def chunkFailMsg : String := "Chunking failed: no valid audio chunks produced"

/-- `MAX_CHUNK_SECONDS` (core/tasks.py).  The dictionary lookup
`MAX_CHUNK_SECONDS.get(model, 480)` always finds the model, so the
480 default is unreachable and the table is total here. -/
def maxChunkSeconds : ModelChoice → ℤ
  | .vira => 300
  | .eboo => 480
  | .scribe => 600

/-! ## Media Segmenter (`MediaService.smart_split_audio`, core/services.py)

Timestamps (silence points, durations) are Python floats in the source;
they are modelled here as exact integers: every comparison the claims
exercise happens at whole-second values, so float rounding is not in
play, and the claims' concrete inputs are all integral.
-/

/-- One iteration of the cut-building loop of `smart_split_audio`
(core/services.py lines 421-427), acting on the accumulator
`(cuts, start)`.  `all` is the full `silence_points` list (the list
comprehension ranges over all of it, not only the points past `start`). -/
def buildCutsStep (all : List ℤ) (maxC minC : ℤ) (acc : List (ℤ × ℤ) × ℤ)
    (sp : ℤ) : List (ℤ × ℤ) × ℤ :=
  if sp - acc.2 ≥ maxC then
    match (all.filter (fun s => acc.2 + minC ≤ s ∧ s ≤ sp)).getLast? with
    | some cut => (acc.1 ++ [(acc.2, cut)], cut)
    | none => acc
  else acc

/-- `cuts` as computed by the loop in `smart_split_audio`
(`cuts = []`, `start = 0.0`, `for sp in silence_points: ...`), before
the tail segment is appended. -/
def buildCuts (silencePoints : List ℤ) (maxC minC : ℤ) : List (ℤ × ℤ) :=
  (silencePoints.foldl (buildCutsStep silencePoints maxC minC) ([], 0)).1

/-- The value of `start` after the cut loop. -/
def buildCutsStart (silencePoints : List ℤ) (maxC minC : ℤ) : ℤ :=
  (silencePoints.foldl (buildCutsStep silencePoints maxC minC) ([], 0)).2

/-- Tail handling of `smart_split_audio` (core/services.py lines 430-439):
the trailing segment becomes an open-ended cut if it is at least
`minC` long, otherwise the last cut is extended to the end of the track. -/
def cutsWithTail (silencePoints : List ℤ) (maxC minC totalDuration : ℤ) :
    List (ℤ × Option ℤ) :=
  let cuts := buildCuts silencePoints maxC minC
  let start := buildCutsStart silencePoints maxC minC
  if totalDuration - start ≥ minC then
    cuts.map (fun p => (p.1, some p.2)) ++ [(start, none)]
  else
    match cuts.dropLast, cuts.getLast? with
    | front, some (ps, _) => front.map (fun p => (p.1, some p.2)) ++ [(ps, none)]
    | _, none => []

/-! ## Transcription adapters (core/services.py)

An adapter returns a result dictionary; the possible shapes are the
`{"text": ...}`, `{"error": ...}` and `{"exception": ...}` dictionaries
(extra keys such as `"raw"` carry no behaviour and are dropped). -/

/-- The dictionaries an adapter `process` call can return. -/
inductive Outcome where
  | text (s : String)
  | error (s : String)
  | exception (s : String)
deriving DecidableEq

/-- The behaviour of one `requests` call: either the library raises a
transport exception, or a response arrives with a status code, a raw
body text (`r.text`) and a parsed view `β` of its JSON. -/
inductive HttpOutcome (β : Type) where
  | raise (msg : String)
  | reply (status : Nat) (text : String) (body : β)

/-- Parsed JSON of the Eboo `addfile` reply; `none` for a field models a
missing key, an outer `none` (see `ebooProcess`) models `r.json()` raising. -/
structure EbooAddJson where
  fileTokenUpper : Option String   -- res.get("FileToken")
  fileTokenLower : Option String   -- res.get("filetoken")

/-- Parsed JSON of one Eboo `checkconvert` reply. -/
structure EbooPollJson where
  statusField : String   -- js.get("Status", "")
  output : String        -- js.get("Output", "")

/-- The `checkconvert` polling loop of `EbooService.process`
(core/services.py lines 88-112).  `fuel` starts at 60 (`range(60)`),
`i` is the attempt index.  `r3 = requests.post(...)` is NOT wrapped in
a try/except, so a transport exception propagates (`Except.error`);
only `r3.json()` is guarded (`body = none` → `continue`). -/
def ebooPollLoop (polls : Nat → HttpOutcome (Option EbooPollJson)) :
    Nat → Nat → Except String Outcome
  | 0, _ => .ok (.error "Eboo polling timeout")
  | fuel + 1, i =>
    match polls i with
    | .raise m => .error m
    | .reply status _ body =>
      if status ≠ 200 then ebooPollLoop polls fuel (i + 1)
      else
        match body with
        | none => ebooPollLoop polls fuel (i + 1)
        | some js =>
          if js.statusField = "ConvertFinished" then
            .ok (.text (pyStrip js.output))
          else if js.statusField = "ConvertFailed" ∨ js.statusField = "Error" then
            -- f"Eboo conversion failed: {js}": the message interpolates the
            -- reply; its exact rendering is modelled by the status field.
            .ok (.error ("Eboo conversion failed: " ++ js.statusField))
          else ebooPollLoop polls fuel (i + 1)

/-- `EbooService.process` (core/services.py lines 51-112).  None of the
`requests.post` calls is wrapped in a try/except, so a transport
exception at any of them is a raised exception (`Except.error`), never
a returned `{"exception": ...}` value. -/
def ebooProcess (token : Option String) (fileExists : Bool)
    (add : HttpOutcome (Option EbooAddJson))
    (convert : HttpOutcome Unit)
    (polls : Nat → HttpOutcome (Option EbooPollJson)) : Except String Outcome :=
  match pyStr token with
  | none => .ok (.error "EBOO_TOKEN missing in settings")
  | some _ =>
    if !fileExists then .ok (.error "File not found")
    else
      match add with
      | .raise m => .error m
      | .reply status text body =>
        if status ≠ 200 then .ok (.error ("Eboo addfile failed: " ++ text))
        else
          match body with
          | none => .error "Eboo addfile: invalid JSON"   -- r.json() raised
          | some res =>
            match pyOr res.fileTokenUpper res.fileTokenLower with
            | none => .ok (.error "Eboo addfile: file token missing")
            | some _ =>
              match convert with
              | .raise m => .error m
              | .reply status2 text2 _ =>
                if status2 ≠ 200 then .ok (.error ("Eboo convert failed: " ++ text2))
                else ebooPollLoop polls 60 0

/-- One generation record inside a Scribe poll reply. -/
structure ScribeGen where
  content : Option String   -- first_gen.get("content")
  textField : Option String -- first_gen.get("text")
  url : Option String       -- first_gen.get("url")

/-- Parsed JSON of one Scribe poll reply. -/
structure ScribeJs where
  statusField : String                      -- js.get("status")
  generations : Option (List ScribeGen)     -- js.get("generations")

/-- One attempt of the Scribe polling loop: any exception inside the
attempt (transport or `json()`) is caught and the loop sleeps and
retries, so it is a single `exc` shape. -/
inductive ScribePollR where
  | exc (msg : String)
  | reply (status : Nat) (js : Option ScribeJs)

/-- Python `str.strip('"')`: drop leading and trailing `"` characters. -/
def stripQuotes (s : String) : String :=
  ((s.toList.dropWhile (· = '"')).reverse.dropWhile (· = '"')).reverse.asString

/-- The COMPLETED branch of the Scribe poll loop (core/services.py lines
200-221): extract text from the first generation, fall back to
downloading the result artifact, and degrade to placeholder strings —
still returned as a success `{"text": ...}` dictionary. -/
def scribeCompleted (gens : Option (List ScribeGen))
    (download : Except String String) : Except String Outcome :=
  match gens with
  | some (g :: _) =>
    match pyOr g.content g.textField with
    | some t => .ok (.text t)
    | none =>
      match pyStr g.url with
      | some _ =>
        match download with
        | .error m => .ok (.error ("Failed to download result text: " ++ m))
        | .ok raw =>
          match pyStr (some (stripQuotes (pyStrip raw))) with
          | some t => .ok (.text t)
          | none => .ok (.text "Generation completed but content is empty")
      | none => .ok (.text "Generation completed but content is empty")
  | some [] => .ok (.text "No generations found")
  | none => .ok (.text "No generations found")

/-- The polling loop of `ScribeService.process` (core/services.py lines
193-231).  Every exception inside an attempt is caught (`except` →
sleep and retry), so transport failures never escape; exhausting the
60 attempts returns a timeout error dictionary. -/
def scribePollLoop (polls : Nat → ScribePollR) (download : Except String String) :
    Nat → Nat → Except String Outcome
  | 0, _ => .ok (.error "Timeout waiting for Scribe result")
  | fuel + 1, i =>
    match polls i with
    | .exc _ => scribePollLoop polls download fuel (i + 1)
    | .reply status js? =>
      if status = 200 then
        match js? with
        | none => scribePollLoop polls download fuel (i + 1)
        | some js =>
          if js.statusField = "COMPLETED" then scribeCompleted js.generations download
          else if js.statusField = "ERROR" then .ok (.error "SCRIBE task failed")
          else scribePollLoop polls download fuel (i + 1)
      else scribePollLoop polls download fuel (i + 1)

/-- `ScribeService.process` (core/services.py lines 129-231).  The
`upload` and `generate` bodies are `Option (Option String)`: the outer
`none` models `.json()` raising (those two calls parse outside any
try/except, so that propagates), the inner option is the truthy
`files[0].url` / task `id` if the reply carries one. -/
def scribeProcess (filePath : String) (token : Option String) (fileExists : Bool)
    (upload : HttpOutcome (Option (Option String)))
    (generate : HttpOutcome (Option (Option String)))
    (polls : Nat → ScribePollR)
    (download : Except String String) : Except String Outcome :=
  match pyStr token with
  | none => .ok (.error "SCRIBE_TOKEN missing in settings")
  | some _ =>
    if !fileExists then .ok (.error ("File not found: " ++ filePath))
    else
      match upload with
      | .raise m => .ok (.exception ("Upload error: " ++ m))
      | .reply status text body =>
        if status ≠ 200 ∧ status ≠ 201 then .ok (.error ("Upload failed: " ++ text))
        else
          match body with
          | none => .error "Scribe upload: invalid JSON"   -- upload.json() raised
          | some urlField =>
            match urlField with
            | none => .ok (.error "No audio_url returned")
            | some _ =>
              match generate with
              | .raise m => .ok (.exception ("Generate error: " ++ m))
              | .reply status2 text2 body2 =>
                if status2 ≠ 200 ∧ status2 ≠ 201 then
                  .ok (.error ("Generate failed: " ++ text2))
                else
                  match body2 with
                  | none => .error "Scribe generate: invalid JSON"
                  | some idField =>
                    match idField with
                    | none => .ok (.error "No task ID returned")
                    | some _ => scribePollLoop polls download 60 0

/-- Parsed JSON view of a Vira reply.  `primary` is the nested
`data.data.aiResponse.result.text` path, `segments` the list of
`seg.get("text", "")` values of `aiResponse.segments` when that key
holds a list, `aiText` the `aiResponse["text"]` value when present. -/
structure ViraJs where
  primary : Option String
  segments : Option (List String)
  aiText : Option String

/-- The text-extraction fallback chain of `ViraService.process`
(core/services.py lines 302-321), ending in `{"text": text or ""}`. -/
def viraExtract (js : ViraJs) : String :=
  match pyStr js.primary with
  | some t => t
  | none =>
    match js.segments with
    | some l => String.intercalate " " (l.filter (fun s => s ≠ ""))
    | none =>
      match js.aiText with
      | some v => v
      | none => ""

/-- `ViraService.process` (core/services.py lines 249-321).  The single
HTTP call is wrapped: `requests.exceptions.RequestException` becomes the
`{"exception": ...}` dictionary, a JSON `ValueError` becomes an error
dictionary, so this adapter never raises (the file is opened after the
existence check). -/
def viraProcess (filePath : String) (token : Option String) (fileExists : Bool)
    (call : HttpOutcome (Option ViraJs)) : Outcome :=
  match pyStr token with
  | none => .error "VIRA_TOKEN missing in settings"
  | some _ =>
    if !fileExists then .error ("File not found: " ++ filePath)
    else
      match call with
      | .raise m => .exception ("Request error: " ++ m)
      | .reply status text js? =>
        if status ≠ 200 ∧ status ≠ 201 then .error ("Vira failed: " ++ text)
        else
          match js? with
          | none => .error "Invalid JSON returned from Vira"
          | some js => .text (viraExtract js)

/-- `SummaryService.summarize` (core/services.py lines 588-640).  The
`call` body is the extracted `choices[0].message.content` when the JSON
carries one.  `resp.raise_for_status()` raises for status ≥ 400; every
exception is caught and becomes `""`, so summarize never raises. -/
def summarize (text : String) (call : HttpOutcome (Option String)) : String :=
  if text = "" ∨ (pyStrip text).length < 50 then ""
  else
    match call with
    | .raise _ => ""
    | .reply status _ body =>
      if status ≥ 400 then ""
      else
        match body with
        | some content => pyStrip content
        | none => ""

/-! ## Job Orchestrator (`process_audio_file`, core/tasks.py lines 45-377)

The task body runs inside `try ... except ... finally`.  `runBody` is the
`try` block: it returns the in-memory job record, the local variables the
`finally` block reads (`temp_path`, `extracted_audio_path`, `file_path`,
`chunks`), the files already removed, and — when an exception escapes the
body — its message.  `runTask` adds the outer `except` handler and the
`finally` cleanup.  Database saves always succeed in this model. -/

/-- How step 3 resolves the source: a bound uploaded file, a source URL
(whose download may raise), or no source at all. -/
inductive Source where
  | localFile (path : String)
  | url (download : Except String String)
  | noSource

/-- The environment of one task execution: what each external effect
(download, ffmpeg, ffprobe, the filesystem, the vendor call, the
summarizer) does when invoked. -/
structure Env where
  jobExists : Bool
  source : Source
  isVideo : Bool
  extract : Except String String        -- MediaService.extract_audio result
  durationOf : String → ℤ               -- get_audio_duration per path
  existsOnDisk : String → Bool          -- os.path.exists per path
  split : Except String (List String)   -- MediaService.smart_split_audio result
  adapt : String → Except String Outcome  -- the selected XService.process call
  summaryRes : Except String String     -- SummaryService.summarize result

/-- Chunk validation (core/tasks.py lines 171-191): drop missing files,
delete and drop sub-second chunks.  Returns (valid chunks, removed files),
both in original order. -/
def validateChunks (env : Env) : List String → List String × List String
  | [] => ([], [])
  | c :: rest =>
    let p := validateChunks env rest
    if !env.existsOnDisk c then p
    else if env.durationOf c < 1 then (p.1, c :: p.2)
    else (c :: p.1, p.2)

/-- The per-chunk transcription loop (core/tasks.py lines 209-240):
skip sub-second chunks, re-raise adapter exceptions (`except ... raise`),
skip falsy/error/exception results, collect non-empty stripped texts in
order. -/
def chunkLoop (env : Env) : List String → Except String (List String)
  | [] => .ok []
  | c :: rest =>
    if env.durationOf c < 1 then chunkLoop env rest
    else
      match env.adapt c with
      | .error e => .error e
      | .ok o =>
        match o with
        | .error _ => chunkLoop env rest
        | .exception _ => chunkLoop env rest
        | .text t =>
          if pyStrip t = "" then chunkLoop env rest
          else (chunkLoop env rest).map (pyStrip t :: ·)

/-- The texts the loop collects, as a direct filter: the non-empty
stripped texts of the chunks whose adapter call returned a text. -/
def goodTexts (adapt : String → Except String Outcome) (cs : List String) :
    List String :=
  cs.filterMap (fun c =>
    match adapt c with
    | .ok (.text t) => if pyStrip t = "" then none else some (pyStrip t)
    | _ => none)

/-- The local variables of `process_audio_file` visible to the `finally`
block, plus the in-memory job record and the message of an exception
that escaped the `try` body (if any). -/
structure BodyOut where
  job : Job
  tempPath : Option String
  extractedPath : Option String
  filePath : Option String
  chunksVar : Option (List String)
  removedDuringBody : List String
  escaped : Option String
deriving DecidableEq

/-- Step 8 of the task body (core/tasks.py lines 268-290): the summary
attempt.  A non-empty summary is saved; an empty summary is only logged;
an exception is caught and swallowed.  Status, transcript and error
message are never touched. -/
def sumUpd (summ : Except String String) (j2 : Job) : Job :=
  match summ with
  | .ok s => if s ≠ "" then { j2 with summaryText := some s, showSummary := true } else j2
  | .error _ => j2

/-- Steps 4.5-8 of the task body, entered with the source resolved to
`fp` (and `tempPath`/`extractedPath` as created so far). -/
def bodyChunks (env : Env) (j1 : Job) (tempPath extractedPath : Option String)
    (fp : String) : BodyOut :=
  let model := j1.modelName.getD .eboo
  let rawChunks : Except String (List String) :=
    if env.durationOf fp > maxChunkSeconds model then env.split else .ok [fp]
  match rawChunks with
  | .error e => ⟨j1, tempPath, extractedPath, some fp, none, [], some e⟩
  | .ok cs =>
    let v := validateChunks env cs
    if v.1 = [] then
      ⟨{ j1 with status := .failed, errorMessage := some chunkFailMsg },
        tempPath, extractedPath, some fp, some v.1, v.2, none⟩
    else
      match chunkLoop env v.1 with
      | .error e => ⟨j1, tempPath, extractedPath, some fp, some v.1, v.2, some e⟩
      | .ok texts =>
        if texts = [] then
          ⟨{ j1 with status := .failed, errorMessage := some humanErrEmpty },
            tempPath, extractedPath, some fp, some v.1, v.2, none⟩
        else
          let ft0 := String.intercalate "\n\n" texts
          let ft := if ft0 = "" then humanErrEmpty else ft0
          let j2 := { j1 with transcriptText := some ft, status := .completed,
                              errorMessage := none }
          ⟨sumUpd env.summaryRes j2, tempPath, extractedPath, some fp, some v.1,
            v.2, none⟩

/-- Step 4 of the task body: extract audio when the job is a video. -/
def bodyFrom (env : Env) (j1 : Job) (tempPath : Option String) (fp0 : String) :
    BodyOut :=
  if env.isVideo then
    match env.extract with
    | .error _ =>
      ⟨{ j1 with status := .failed, errorMessage := some humanErrVideo },
        tempPath, none, some fp0, none, [], none⟩
    | .ok ep => bodyChunks env j1 tempPath (some ep) ep
  else bodyChunks env j1 tempPath none fp0

/-- The `try` body of `process_audio_file` (steps 1-8). -/
def runBody (env : Env) (j0 : Job) : BodyOut :=
  if !env.jobExists then ⟨j0, none, none, none, none, [], none⟩
  else
    let j1 := { j0 with status := .processing }
    match env.source with
    | .noSource =>
      -- status/error saved, then `raise Exception("No source file")`
      ⟨{ j1 with status := .failed, errorMessage := some noSourceMsg },
        none, none, none, none, [], some "No source file"⟩
    | .url dl =>
      match dl with
      | .error _ =>
        ⟨{ j1 with status := .failed, errorMessage := some downloadFailMsg },
          none, none, none, none, [], none⟩
      | .ok tp => bodyFrom env j1 (some tp) tp
    | .localFile p => bodyFrom env j1 none p

/-- The observable outcome of one task execution: the final job record,
whether the outer handler caught an escaped exception, the status the
record had when it was caught, every file removed during the run, and
whether the queue hand-off section of the `finally` block was reached. -/
structure RunResult where
  job : Job
  escaped : Bool
  preCatch : Status
  removed : List String
  handoffReached : Bool
deriving DecidableEq

/-- os.path.exists at `finally` time: the file exists in the environment
and was not already removed during the body. -/
def existsAfterBody (env : Env) (b : BodyOut) (c : String) : Bool :=
  env.existsOnDisk c && !b.removedDuringBody.contains c

/-- `process_audio_file` in full: body, outer `except` handler
(core/tasks.py lines 297-302: force `failed` unless the in-memory status
is already `failed`), then the `finally` cleanup (temp file, extracted
audio, and chunk files — the latter only when `len(chunks) > 1`), then
the queue hand-off section. -/
def runTask (env : Env) (j0 : Job) : RunResult :=
  let b := runBody env j0
  let jc :=
    match b.escaped with
    | some _ =>
      if b.job.status ≠ .failed then
        { b.job with status := .failed, errorMessage := some humanErrUnknown }
      else b.job
    | none => b.job
  let r1 :=
    match b.extractedPath with
    | some ep => if existsAfterBody env b ep then [ep] else []
    | none => []
  let r2 :=
    match b.tempPath with
    | some tp => if existsAfterBody env b tp then [tp] else []
    | none => []
  let r3 :=
    match b.chunksVar with
    | some cs =>
      if cs.length > 1 then
        cs.filter (fun c => some c ≠ b.filePath && existsAfterBody env b c)
      else []
    | none => []
  ⟨jc, b.escaped.isSome, b.job.status, b.removedDuringBody ++ r1 ++ r2 ++ r3,
    env.jobExists⟩

/-! ## Stuck-Job Reaper (`check_and_recover_stuck_tasks`, core/task_monitor.py)

Celery reports the result state of a task id as a string; an id the
backend has never seen reports `"PENDING"`, which is how a missing
execution surfaces. -/

/-- `check_and_recover_stuck_tasks`: reset a processing job whose
recorded task reports `PENDING`, `REVOKED` or `FAILURE` back to pending;
everything else is untouched.  `state` is `AsyncResult(task_id).state`. -/
def checkAndRecoverStuckTasks (state : String → String) (jobs : List Job) :
    List Job :=
  jobs.map (fun j =>
    if j.status = .processing then
      match j.taskId with
      | some t =>
        if state t = "PENDING" ∨ state t = "REVOKED" ∨ state t = "FAILURE" then
          { j with status := .pending }
        else j
      | none => j
    else j)

/-- The spec's vocabulary for the state of an execution handle
(spec §6: queryState → missing / revoked / failed / running / done). -/
inductive HandleState where
  | missing
  | revoked
  | failed
  | running
  | done
deriving DecidableEq

/-- Reading a Celery result-state string in the spec's vocabulary:
`PENDING` is what Celery reports for an id it has no record of
(missing), `SUCCESS` is done, `REVOKED`/`FAILURE` as named, and any
live state (`STARTED`, `RETRY`, `RECEIVED`, ...) is running. -/
def handleStateOfCelery (s : String) : HandleState :=
  if s = "PENDING" then .missing
  else if s = "REVOKED" then .revoked
  else if s = "FAILURE" then .failed
  else if s = "SUCCESS" then .done
  else .running

/-- Modelled from the spec's words for claim C9: the reaper resets a
processing job carrying a handle exactly when the handle's queried state
is missing, revoked or failed; all other jobs are unchanged. -/
def claimRecover (hstate : String → HandleState) (jobs : List Job) : List Job :=
  jobs.map (fun j =>
    if j.status = .processing then
      match j.taskId with
      | some t =>
        if hstate t = .missing ∨ hstate t = .revoked ∨ hstate t = .failed then
          { j with status := .pending }
        else j
      | none => j
    else j)

/-! ## Per-User Queue Scheduler as a transition system

`process_audio_file` runs for minutes, so its `pending → processing`
entry (step 2) and its terminal transition plus queue hand-off (step 7 /
the `finally` block) are separate events interleaved with the periodic
`start_next_pending_jobs` sweep.  The state carries the job table, the
Celery queue of not-yet-started dispatch messages (FIFO), and the set of
executions currently running.  Every constructor below is a behaviour
the code exhibits. -/

structure SysState where
  jobs : List Job
  queue : List Nat
  running : List Nat
deriving DecidableEq

/-- `filter(user_id=u, status=PROCESSING).exists()`. -/
def hasProcessing (jobs : List Job) (u : Nat) : Bool :=
  jobs.any (fun j => j.userId == u && j.status == Status.processing)

/-- `filter(user_id=u, status=PENDING).order_by("created_at").first()`. -/
def oldestPending (jobs : List Job) (u : Nat) : Option Job :=
  (jobs.filter (fun j => j.userId == u && j.status == Status.pending)).foldl
    (fun acc j =>
      match acc with
      | none => some j
      | some k => if j.createdAt < k.createdAt then some j else some k)
    none

/-- Update the status of the job with the given id. -/
def setJobStatus (jobs : List Job) (i : Nat) (st : Status) : List Job :=
  jobs.map (fun j => if j.id = i then { j with status := st } else j)

/-- The user-level queue hand-off in the `finally` block of
`process_audio_file` (core/tasks.py lines 337-377): if the owner has no
other processing job, mark their oldest pending job processing and
enqueue a dispatch for it. -/
def handoffStep (s : SysState) (finishedId u : Nat) : SysState :=
  let others := s.jobs.any (fun j =>
    j.userId == u && j.status == Status.processing && j.id != finishedId)
  if others then s
  else
    match oldestPending s.jobs u with
    | some n =>
      { s with jobs := setJobStatus s.jobs n.id .processing,
               queue := s.queue ++ [n.id] }
    | none => s

/-- The interleaved behaviours of the scheduler/orchestrator pair:

* `sweep` — one user's iteration of `start_next_pending_jobs`
  (core/tasks.py lines 389-416): when the user has no processing job,
  `process_audio_file.delay(...)` enqueues a dispatch for the oldest
  pending job; the job's status is NOT changed by the sweep.
* `begin` — a worker picks the head dispatch message and runs step 2 of
  `process_audio_file` (lines 75-77): the status is set to `processing`
  unconditionally.
* `finish` — a running execution reaches its terminal save (`completed`
  on success, `failed` on a failure path) and its `finally` hand-off runs. -/
inductive SysStep : SysState → SysState → Prop where
  | sweep (s : SysState) (u : Nat) (j : Job) :
      hasProcessing s.jobs u = false →
      oldestPending s.jobs u = some j →
      SysStep s { s with queue := s.queue ++ [j.id] }
  | begin (s : SysState) (i : Nat) (rest : List Nat) :
      s.queue = i :: rest →
      (∃ j ∈ s.jobs, j.id = i) →
      SysStep s { jobs := setJobStatus s.jobs i .processing,
                  queue := rest,
                  running := i :: s.running }
  | finish (s : SysState) (j : Job) (term : Status) :
      j ∈ s.jobs →
      j.id ∈ s.running →
      (term = .completed ∨ term = .failed) →
      SysStep s (handoffStep
        { jobs := setJobStatus s.jobs j.id term,
          queue := s.queue,
          running := s.running.erase j.id } j.id j.userId)

/-- How many of user `u`'s jobs are `processing`. -/
def countProcessing (s : SysState) (u : Nat) : Nat :=
  (s.jobs.filter (fun j => j.userId == u && j.status == Status.processing)).length

/-! ## Concrete instances used by the theorems below -/

/-- An environment on the audio (non-video), local-file, chunked path,
with every oracle explicit; steps 1-4 succeed and the interesting data
(chunk list, adapter behaviour, summary behaviour) is parametric. -/
def pipeEnv (p : String) (dOf : String → ℤ) (eOf : String → Bool)
    (cs : List String) (adapt : String → Except String Outcome)
    (summ : Except String String) : Env :=
  { jobExists := true, source := .localFile p, isVideo := false,
    extract := .ok "", durationOf := dOf, existsOnDisk := eOf,
    split := .ok cs, adapt := adapt, summaryRes := summ }

/-- Durations: the source file is 700 s (forcing chunking), every chunk 30 s. -/
def wDur : String → ℤ := fun c => if c = "src.wav" then 700 else 30

/-- A three-chunk adapter behaviour: chunk 2 reports a vendor error,
chunks 1 and 3 return text. -/
def wAdapt : String → Except String Outcome := fun c =>
  if c = "c2" then .ok (.error "vendor error")
  else if c = "c1" then .ok (.text " hello ")
  else .ok (.text "world")

def wJob : Job := { id := 7, userId := 3, status := .pending }

def wEnv3 : Env :=
  pipeEnv "src.wav" wDur (fun _ => true) ["c1", "c2", "c3"] wAdapt (.ok "sum")

def wEnv4 : Env :=
  pipeEnv "src.wav" wDur (fun _ => true) ["c1", "c2"]
    (fun c => if c = "c1" then .ok (.error "vendor error")
              else .ok (.text "   ")) (.ok "")

def wEnv6 : Env :=
  pipeEnv "src.wav" wDur (fun _ => true) ["c1"] (fun _ => .error "crash") (.ok "")

def wEnv7 : Env :=
  pipeEnv "src.wav" wDur (fun _ => true) ["c1", "c2", "c3"] wAdapt
    (.error "summary service down")

/-- A COMPLETED Scribe poll reply with no generations list. -/
def scribeJsNoGens : ScribeJs := { statusField := "COMPLETED", generations := none }

/-- A generation record with empty content and no artifact URL. -/
def scribeGenEmpty : ScribeGen := { content := none, textField := none, url := none }

/-- A COMPLETED Scribe poll reply whose only generation is empty. -/
def scribeJsEmptyGen : ScribeJs :=
  { statusField := "COMPLETED", generations := some [scribeGenEmpty] }

/-- A Scribe call that polls to COMPLETED with no generations list. -/
def scribeEmptyCall : Except String Outcome :=
  scribeProcess "c1" (some "tok") true (.reply 200 "" (some (some "u")))
    (.reply 200 "" (some (some "tid")))
    (fun _ => .reply 200 (some scribeJsNoGens))
    (.ok "")

def wJob10 : Job := { id := 9, userId := 2, status := .pending,
                      modelName := some .scribe }

def wEnv10 : Env :=
  pipeEnv "src.wav" wDur (fun _ => true) ["c1"] (fun _ => scribeEmptyCall) (.ok "")

/-- C8's failing input: a 700 s source whose segmentation produces
exactly one valid chunk file, which transcribes successfully. -/
def leakEnv : Env :=
  pipeEnv "src.wav" (fun c => if c = "src.wav" then 700 else 120) (fun _ => true)
    ["src_chunk_000.wav"] (fun _ => .ok (.text "hello")) (.ok "")

def leakJob : Job := { id := 11, userId := 5, status := .pending }

/-- C1's trace: two pending jobs of user 1 (job 1 older than job 2). -/
def jA : Job := { id := 1, userId := 1, status := .pending, createdAt := 0 }
def jB : Job := { id := 2, userId := 1, status := .pending, createdAt := 1 }

def raceS0 : SysState := ⟨[jA, jB], [], []⟩
def raceS1 : SysState := ⟨[jA, jB], [1], []⟩
def raceS2 : SysState := ⟨[jA, jB], [1, 1], []⟩
def raceS3 : SysState :=
  ⟨[{ jA with status := .processing }, jB], [1], [1]⟩
def raceS4 : SysState :=
  ⟨[{ jA with status := .completed }, { jB with status := .processing }], [1, 2], []⟩
def raceS5 : SysState :=
  ⟨[{ jA with status := .processing }, { jB with status := .processing }], [2], [1]⟩

/-! ## Theorems -/

/-- C2.  The greedy cut-building loop of `smart_split_audio`, on silence
points [100, 200, 500] with `maxChunkSeconds = 300` and
`minChunkSeconds = 60`, puts its first (and only) cut at 500 — the
silence point that triggered the overflow itself, because the filter
bound `s <= sp` includes `sp` — and not at 200 as the claim requires.
The resulting first chunk is 500 s long, exceeding the 300 s bound the
chunking exists to enforce, so the code diverges from the documented
algorithm (code bug). -/
theorem claim2_cut_at_trigger :
    buildCuts [100, 200, 500] 300 60 = [(0, 500)]
    ∧ ((0 : ℤ), (200 : ℤ)) ∉ buildCuts [100, 200, 500] 300 60 := by
  constructor
  · decide
  · decide

/-- C9.  The stuck-job reaper resets a `processing` job carrying an
execution handle to `pending` exactly when the handle's queried state is
missing (Celery reports `PENDING` for an id it has no record of),
revoked, or failed; jobs whose handle reports a live or finished state
and jobs without a handle are untouched.  Stated as a refinement: the
code (`check_and_recover_stuck_tasks`) equals the recovery function
written from the claim's words, after reading Celery's state strings in
the spec's handle-state vocabulary. -/
theorem claim9_reaper_refines (state : String → String) (jobs : List Job) :
    checkAndRecoverStuckTasks state jobs =
      claimRecover (fun t => handleStateOfCelery (state t)) jobs := by
  unfold checkAndRecoverStuckTasks claimRecover
  apply List.map_congr_left
  intro j _
  by_cases hst : j.status = .processing
  · simp only [hst, if_pos rfl]
    cases h : j.taskId with
    | none => rfl
    | some t =>
      simp only [handleStateOfCelery]
      by_cases h1 : state t = "PENDING"
      · simp [h1]
      · by_cases h2 : state t = "REVOKED"
        · simp [h1, h2]
        · by_cases h3 : state t = "FAILURE"
          · simp [h1, h2, h3]
          · by_cases h4 : state t = "SUCCESS" <;> simp [h1, h2, h3, h4]
  · simp [hst]

/-- C1.  Mutual exclusion fails: from a state with no processing job, no
queued dispatch and no running execution, the modelled transitions of the
code (two sweep iterations enqueue job 1's dispatch twice because the
sweep never marks the job; the first dispatch runs job 1 to completion
and its hand-off starts job 2; the stale second dispatch then sets the
already-completed job 1 back to `processing`) reach a state where user 1
has two jobs in `processing` at once. -/
theorem claim1_race :
    Relation.ReflTransGen SysStep raceS0 raceS5
    ∧ (∀ j ∈ raceS0.jobs, j.status ≠ Status.processing)
    ∧ raceS0.queue = [] ∧ raceS0.running = []
    ∧ countProcessing raceS5 1 = 2 := by
  refine ⟨?_, by decide, rfl, rfl, by decide⟩
  have h01 : SysStep raceS0 raceS1 :=
    SysStep.sweep raceS0 1 jA (by decide) (by decide)
  have h12 : SysStep raceS1 raceS2 :=
    SysStep.sweep raceS1 1 jA (by decide) (by decide)
  have h23 : SysStep raceS2 raceS3 :=
    SysStep.begin raceS2 1 [1] rfl ⟨jA, by decide, rfl⟩
  have h34 : SysStep raceS3 raceS4 :=
    SysStep.finish raceS3 { jA with status := .processing } .completed
      (by decide) (by decide) (Or.inl rfl)
  have h45 : SysStep raceS4 raceS5 :=
    SysStep.begin raceS4 1 [2] rfl ⟨{ jA with status := .completed }, by decide, rfl⟩
  exact .head h01 (.head h12 (.head h23 (.head h34 (.single h45))))

/-- C8.  The guaranteed cleanup misses the single-valid-chunk case: with
a source long enough to be segmented and a segmentation yielding exactly
one valid chunk file, the job completes and control reaches the
scheduler hand-off, but the chunk file — a segmented intermediate that
is not the original source — is never removed, because the `finally`
cleanup only runs over chunks when `len(chunks) > 1` (code bug). -/
theorem claim8_single_chunk_leak :
    (runTask leakEnv leakJob).job.status = .completed
    ∧ leakEnv.split = .ok ["src_chunk_000.wav"]
    ∧ leakEnv.existsOnDisk "src_chunk_000.wav" = true
    ∧ "src_chunk_000.wav" ∉ (runTask leakEnv leakJob).removed
    ∧ (runTask leakEnv leakJob).removed = []
    ∧ (runTask leakEnv leakJob).handoffReached = true := by
  refine ⟨by decide, rfl, rfl, by decide, by decide, by decide⟩

/-- C10.  When a Scribe generation polls to COMPLETED but the
generations list is absent (resp. its first entry has empty content and
no artifact URL), the adapter returns a success `{"text": ...}` whose
text is the literal placeholder "No generations found" (resp.
"Generation completed but content is empty"), not an error; the
orchestrator then treats the placeholder as real chunk text: a job whose
single chunk gets such a reply completes with the placeholder as its
transcript. -/
theorem claim10_scribe_placeholder :
    scribeProcess "c1" (some "tok") true (.reply 200 "" (some (some "u")))
      (.reply 200 "" (some (some "tid")))
      (fun _ => .reply 200 (some scribeJsNoGens))
      (.ok "") = .ok (.text "No generations found")
    ∧ scribeProcess "c1" (some "tok") true (.reply 200 "" (some (some "u")))
      (.reply 200 "" (some (some "tid")))
      (fun _ => .reply 200 (some scribeJsEmptyGen))
      (.ok "") = .ok (.text "Generation completed but content is empty")
    ∧ (runTask wEnv10 wJob10).job.status = .completed
    ∧ (runTask wEnv10 wJob10).job.transcriptText = some "No generations found"
    ∧ (runTask wEnv10 wJob10).job.errorMessage = none := by
  refine ⟨rfl, rfl, by decide, by decide, by decide⟩

/-- C5 counterexample.  The claim says every adapter turns a
network/transport exception during any HTTP call into a returned
`{"exception": ...}` outcome.  The Eboo adapter does not: its
`requests.post` calls are unguarded, so a transport exception at the
`addfile` call propagates as a raised exception (`Except.error`), not a
returned value. -/
theorem claim5_counterexample :
    ebooProcess (some "token") true (.raise "connection error")
      (.reply 200 "" ()) (fun _ => .raise "x") = Except.error "connection error" := by
  rfl

/-- The Scribe polling loop swallows every per-attempt exception and
retries; if all attempts raise, the budget is exhausted and the timeout
error dictionary is returned. -/
theorem scribePollLoop_allExc (m : String) (dl : Except String String) :
    ∀ fuel i, scribePollLoop (fun _ => .exc m) dl fuel i =
      .ok (.error "Timeout waiting for Scribe result") := by
  intro fuel
  induction fuel with
  | zero => intro i; rfl
  | succ n ih =>
    intro i
    show scribePollLoop (fun _ => .exc m) dl n (i + 1) = _
    exact ih (i + 1)

/-- C5 amended.  For every adapter, missing credentials (a `None` or
empty token) and a missing local file yield returned error outcomes, and
adapters are pure functions of their inputs (they take no job record and
return only an outcome).  Transport exceptions, however, differ per
adapter: Vira and Scribe's upload and generate calls return a distinct
`{"exception": ...}` outcome; Scribe's polling loop swallows per-attempt
transport exceptions and surfaces a timeout error outcome instead; and
Eboo propagates the raised exception to the caller. -/
theorem claim5_adapter_errors (tok m fp u tid : String) (htok : tok ≠ "")
    (fe : Bool)
    (add : HttpOutcome (Option EbooAddJson)) (conv : HttpOutcome Unit)
    (epolls : Nat → HttpOutcome (Option EbooPollJson))
    (upl gen : HttpOutcome (Option (Option String)))
    (spolls : Nat → ScribePollR) (dl : Except String String)
    (vcall : HttpOutcome (Option ViraJs)) :
    ebooProcess none fe add conv epolls =
      .ok (.error "EBOO_TOKEN missing in settings")
    ∧ ebooProcess (some tok) false add conv epolls =
      .ok (.error "File not found")
    ∧ scribeProcess fp none fe upl gen spolls dl =
      .ok (.error "SCRIBE_TOKEN missing in settings")
    ∧ scribeProcess fp (some tok) false upl gen spolls dl =
      .ok (.error ("File not found: " ++ fp))
    ∧ viraProcess fp none fe vcall = .error "VIRA_TOKEN missing in settings"
    ∧ viraProcess fp (some tok) false vcall = .error ("File not found: " ++ fp)
    ∧ viraProcess fp (some tok) true (.raise m) =
      .exception ("Request error: " ++ m)
    ∧ scribeProcess fp (some tok) true (.raise m) gen spolls dl =
      .ok (.exception ("Upload error: " ++ m))
    ∧ scribeProcess fp (some tok) true (.reply 200 "" (some (some u)))
        (.raise m) spolls dl = .ok (.exception ("Generate error: " ++ m))
    ∧ scribeProcess fp (some tok) true (.reply 200 "" (some (some u)))
        (.reply 200 "" (some (some tid))) (fun _ => .exc m) dl =
      .ok (.error "Timeout waiting for Scribe result")
    ∧ ebooProcess (some tok) true (.raise m) conv epolls = .error m := by
  have hp : pyStr (some tok) = some tok := by simp [pyStr, htok]
  refine ⟨rfl, ?_, rfl, ?_, rfl, ?_, ?_, ?_, ?_, ?_, ?_⟩
  · simp [ebooProcess, hp]
  · simp [scribeProcess, hp]
  · simp [viraProcess, hp]
  · simp [viraProcess, hp]
  · simp [scribeProcess, hp]
  · simp [scribeProcess, hp]
  · simp [scribeProcess, hp]
    exact scribePollLoop_allExc m dl 60 0
  · simp [ebooProcess, hp]

/-- C5 witness: the amended theorem at a concrete instance. -/
theorem claim5_witness :
    ebooProcess none true (.raise "x") (.raise "y") (fun _ => .raise "z") =
      .ok (.error "EBOO_TOKEN missing in settings")
    ∧ viraProcess "f.wav" (some "k") true (.raise "net down") =
      .exception ("Request error: " ++ "net down")
    ∧ ebooProcess (some "k") true (.raise "net down") (.raise "y")
        (fun _ => .raise "z") = .error "net down" := by
  obtain ⟨h1, _, _, _, _, _, h7, _, _, _, h11⟩ :=
    claim5_adapter_errors "k" "net down" "f.wav" "u" "tid" (by decide) true
      (.raise "x") (.raise "y") (fun _ => .raise "z")
      (.raise "x") (.raise "x") (fun _ => .exc "m") (.ok "")
      (.raise "net down")
  exact ⟨h1, h7, h11⟩

/-- Chunk validation keeps a list of existing, ≥ 1 s chunks intact and
removes nothing. -/
theorem validateChunks_all_valid (env : Env) (cs : List String)
    (hex : ∀ c ∈ cs, env.existsOnDisk c = true)
    (hcd : ∀ c ∈ cs, 1 ≤ env.durationOf c) :
    validateChunks env cs = (cs, []) := by
  induction cs with
  | nil => rfl
  | cons c rest ih =>
    have h1 := hex c (by simp)
    have h2 : ¬ env.durationOf c < 1 := not_lt.mpr (hcd c (by simp))
    have ih2 := ih (fun x hx => hex x (by simp [hx])) (fun x hx => hcd x (by simp [hx]))
    simp [validateChunks, h1, h2, ih2]

/-- When no adapter call raises and every chunk is ≥ 1 s, the chunk loop
returns exactly the non-empty stripped texts, in order. -/
theorem chunkLoop_eq_goodTexts (env : Env) (cs : List String)
    (hcd : ∀ c ∈ cs, 1 ≤ env.durationOf c)
    (hnr : ∀ c ∈ cs, ∃ o, env.adapt c = .ok o) :
    chunkLoop env cs = .ok (goodTexts env.adapt cs) := by
  induction cs with
  | nil => rfl
  | cons c rest ih =>
    obtain ⟨o, ho⟩ := hnr c (by simp)
    have h2 : ¬ env.durationOf c < 1 := not_lt.mpr (hcd c (by simp))
    have ih2 := ih (fun x hx => hcd x (by simp [hx])) (fun x hx => hnr x (by simp [hx]))
    rw [goodTexts] at ih2
    cases o with
    | text t =>
      by_cases ht : pyStrip t = "" <;>
        simp [chunkLoop, goodTexts, h2, ho, ht, ih2, List.filterMap_cons,
          Except.map]
    | error s =>
      simp [chunkLoop, goodTexts, h2, ho, ih2, List.filterMap_cons]
    | exception s =>
      simp [chunkLoop, goodTexts, h2, ho, ih2, List.filterMap_cons]

/-- Every text the loop collects is non-empty. -/
theorem goodTexts_mem_ne (adapt : String → Except String Outcome)
    (cs : List String) : ∀ x ∈ goodTexts adapt cs, x ≠ "" := by
  intro x hx
  rw [goodTexts, List.mem_filterMap] at hx
  obtain ⟨c, _, hfc⟩ := hx
  revert hfc
  cases adapt c with
  | error e => simp
  | ok o =>
    cases o with
    | text t =>
      by_cases ht : pyStrip t = "" <;> simp [ht]
      intro h; rw [← h]; exact ht
    | error s => simp
    | exception s => simp

theorem intercalate_go_length (s : String) (l : List String) :
    ∀ acc : String, acc.length ≤ (String.intercalate.go acc s l).length := by
  induction l with
  | nil => intro acc; exact Nat.le_refl _
  | cons a as ih =>
    intro acc
    have he : String.intercalate.go acc s (a :: as) =
        String.intercalate.go (acc ++ s ++ a) s as := rfl
    rw [he]
    refine Nat.le_trans ?_ (ih (acc ++ s ++ a))
    rw [String.length_append, String.length_append]
    omega

/-- Joining a list whose head is non-empty gives a non-empty string. -/
theorem intercalate_ne_of_head (s a : String) (l : List String) (ha : a ≠ "") :
    String.intercalate s (a :: l) ≠ "" := by
  intro hcon
  have h1 : a.length ≤ (String.intercalate s (a :: l)).length := by
    have he : String.intercalate s (a :: l) = String.intercalate.go a s l := rfl
    rw [he]; exact intercalate_go_length s l a
  rw [hcon] at h1
  have h0 : a.length = 0 := Nat.le_zero.mp h1
  apply ha
  cases a with
  | mk data =>
    have : data = [] := List.length_eq_zero.mp h0
    simp [this]

/-- `sumUpd` never touches status, transcript or error message. -/
theorem sumUpd_frame (summ : Except String String) (j2 : Job) :
    (sumUpd summ j2).status = j2.status
    ∧ (sumUpd summ j2).transcriptText = j2.transcriptText
    ∧ (sumUpd summ j2).errorMessage = j2.errorMessage := by
  cases summ with
  | ok s => by_cases hs : s = "" <;> simp [sumUpd, hs]
  | error m => simp [sumUpd]

/-- A summary failure (raised or empty) is a no-op on the record. -/
theorem sumUpd_failure (summ : Except String String) (j2 : Job)
    (h : (∃ m, summ = .error m) ∨ summ = .ok "") : sumUpd summ j2 = j2 := by
  rcases h with ⟨m, rfl⟩ | rfl <;> simp [sumUpd]

/-- The body of the task on the chunked success path: steps 1-6 succeed,
at least one chunk produced text, so the record commits `completed` with
the joined transcript, the error cleared, and then the summary update. -/
theorem runBody_pipe_success (p : String) (dOf : String → ℤ)
    (eOf : String → Bool) (cs : List String)
    (adapt : String → Except String Outcome) (summ : Except String String)
    (j : Job)
    (hdur : maxChunkSeconds (j.modelName.getD .eboo) < dOf p)
    (hex : ∀ c ∈ cs, eOf c = true)
    (hcd : ∀ c ∈ cs, 1 ≤ dOf c)
    (hnr : ∀ c ∈ cs, ∃ o, adapt c = .ok o)
    (hsome : goodTexts adapt cs ≠ []) :
    runBody (pipeEnv p dOf eOf cs adapt summ) j =
      ⟨sumUpd summ
        { j with status := .completed,
                 transcriptText :=
                   some (String.intercalate "\n\n" (goodTexts adapt cs)),
                 errorMessage := none },
        none, none, some p, some cs, [], none⟩ := by
  have hcs : cs ≠ [] := by
    intro h; exact hsome (by simp [h, goodTexts])
  have hval := validateChunks_all_valid (pipeEnv p dOf eOf cs adapt summ) cs hex hcd
  have hloop := chunkLoop_eq_goodTexts (pipeEnv p dOf eOf cs adapt summ) cs hcd hnr
  simp only [pipeEnv] at hval hloop
  have hft : String.intercalate "\n\n" (goodTexts adapt cs) ≠ "" := by
    cases hg : goodTexts adapt cs with
    | nil => exact absurd hg hsome
    | cons a as =>
      exact intercalate_ne_of_head "\n\n" a as
        (goodTexts_mem_ne adapt cs a (by rw [hg]; simp))
  simp only [runBody, pipeEnv, Bool.not_true, Bool.false_eq_true, if_false,
    bodyFrom, bodyChunks, hval, hloop]
  rw [if_pos hdur]
  simp [hval, hloop, hcs, hsome, hft]

/-- The body of the task when every chunk fails to produce text: the
record commits `failed` with the "empty result" message, and the
transcript and summary steps are never reached. -/
theorem runBody_pipe_empty (p : String) (dOf : String → ℤ)
    (eOf : String → Bool) (cs : List String)
    (adapt : String → Except String Outcome) (summ : Except String String)
    (j : Job)
    (hdur : maxChunkSeconds (j.modelName.getD .eboo) < dOf p)
    (hex : ∀ c ∈ cs, eOf c = true)
    (hcd : ∀ c ∈ cs, 1 ≤ dOf c)
    (hnr : ∀ c ∈ cs, ∃ o, adapt c = .ok o)
    (hcs : cs ≠ [])
    (hnone : goodTexts adapt cs = []) :
    runBody (pipeEnv p dOf eOf cs adapt summ) j =
      ⟨{ j with status := .failed, errorMessage := some humanErrEmpty },
        none, none, some p, some cs, [], none⟩ := by
  have hval := validateChunks_all_valid (pipeEnv p dOf eOf cs adapt summ) cs hex hcd
  have hloop := chunkLoop_eq_goodTexts (pipeEnv p dOf eOf cs adapt summ) cs hcd hnr
  simp only [pipeEnv] at hval hloop
  simp only [runBody, pipeEnv, Bool.not_true, Bool.false_eq_true, if_false,
    bodyFrom, bodyChunks]
  rw [if_pos hdur]
  simp [hval, hloop, hcs, hnone]

/-- C3.  On a job with at least one valid chunk, when no adapter call
raises, chunks whose adapter call returns an error or exception outcome
are skipped without aborting the loop, and as long as at least one chunk
yields non-empty text the job completes: the transcript is the non-empty
stripped chunk texts joined in original order by a blank line, the error
message is cleared, and no exception escapes. -/
theorem claim3_partial_failure_tolerance (p : String) (dOf : String → ℤ)
    (eOf : String → Bool) (cs : List String)
    (adapt : String → Except String Outcome) (summ : Except String String)
    (j : Job)
    (hdur : maxChunkSeconds (j.modelName.getD .eboo) < dOf p)
    (hex : ∀ c ∈ cs, eOf c = true)
    (hcd : ∀ c ∈ cs, 1 ≤ dOf c)
    (hnr : ∀ c ∈ cs, ∃ o, adapt c = .ok o)
    (hsome : goodTexts adapt cs ≠ []) :
    (runTask (pipeEnv p dOf eOf cs adapt summ) j).job.status = .completed
    ∧ (runTask (pipeEnv p dOf eOf cs adapt summ) j).job.transcriptText =
        some (String.intercalate "\n\n" (goodTexts adapt cs))
    ∧ (runTask (pipeEnv p dOf eOf cs adapt summ) j).job.errorMessage = none
    ∧ (runTask (pipeEnv p dOf eOf cs adapt summ) j).escaped = false := by
  have hb := runBody_pipe_success p dOf eOf cs adapt summ j hdur hex hcd hnr hsome
  obtain ⟨hs, ht, he⟩ := sumUpd_frame summ
    { j with status := .completed,
             transcriptText :=
               some (String.intercalate "\n\n" (goodTexts adapt cs)),
             errorMessage := none }
  simp only [runTask, hb]
  exact ⟨hs, ht, he, rfl⟩

/-- C3 witness: three chunks, chunk 2 errors, transcript is chunk 1's
then chunk 3's text separated by a blank line. -/
theorem claim3_witness :
    (runTask wEnv3 wJob).job.status = .completed
    ∧ (runTask wEnv3 wJob).job.transcriptText = some "hello\n\nworld"
    ∧ (runTask wEnv3 wJob).job.errorMessage = none
    ∧ (runTask wEnv3 wJob).escaped = false := by
  have h := claim3_partial_failure_tolerance "src.wav" wDur (fun _ => true)
    ["c1", "c2", "c3"] wAdapt (.ok "sum") wJob (by decide) (by decide)
    (by decide)
    (by intro c hc; fin_cases hc <;> exact ⟨_, rfl⟩)
    (by decide)
  obtain ⟨h1, h2, h3, h4⟩ := h
  refine ⟨h1, ?_, h3, h4⟩
  have h2x : (runTask wEnv3 wJob).job.transcriptText =
      some (String.intercalate "\n\n" (goodTexts wAdapt ["c1", "c2", "c3"])) := h2
  rw [h2x]
  rfl

/-- C4.  When every chunk fails to produce non-empty text (each adapter
call returns an error or exception outcome or empty text), the job ends
`failed` with the "empty result" message and the transcript (and
summary) fields are left exactly as they were — never written. -/
theorem claim4_all_chunks_fail (p : String) (dOf : String → ℤ)
    (eOf : String → Bool) (cs : List String)
    (adapt : String → Except String Outcome) (summ : Except String String)
    (j : Job)
    (hdur : maxChunkSeconds (j.modelName.getD .eboo) < dOf p)
    (hex : ∀ c ∈ cs, eOf c = true)
    (hcd : ∀ c ∈ cs, 1 ≤ dOf c)
    (hnr : ∀ c ∈ cs, ∃ o, adapt c = .ok o)
    (hcs : cs ≠ [])
    (hnone : goodTexts adapt cs = []) :
    (runTask (pipeEnv p dOf eOf cs adapt summ) j).job.status = .failed
    ∧ (runTask (pipeEnv p dOf eOf cs adapt summ) j).job.errorMessage =
        some humanErrEmpty
    ∧ (runTask (pipeEnv p dOf eOf cs adapt summ) j).job.transcriptText =
        j.transcriptText
    ∧ (runTask (pipeEnv p dOf eOf cs adapt summ) j).job.summaryText =
        j.summaryText := by
  have hb := runBody_pipe_empty p dOf eOf cs adapt summ j hdur hex hcd hnr hcs hnone
  simp [runTask, hb]

/-- C4 witness: two chunks, one vendor error and one whitespace-only
text; the job fails with the "empty result" message and the transcript
stays unset. -/
theorem claim4_witness :
    (runTask wEnv4 wJob).job.status = .failed
    ∧ (runTask wEnv4 wJob).job.errorMessage = some humanErrEmpty
    ∧ (runTask wEnv4 wJob).job.transcriptText = none
    ∧ (runTask wEnv4 wJob).job.summaryText = none := by
  have h := claim4_all_chunks_fail "src.wav" wDur (fun _ => true) ["c1", "c2"]
    (fun c => if c = "c1" then .ok (.error "vendor error") else .ok (.text "   "))
    (.ok "") wJob (by decide) (by decide) (by decide)
    (by intro c hc; fin_cases hc <;> exact ⟨_, rfl⟩)
    (by decide) (by decide)
  exact h

/-- C7.  For a job that completes, a summarization failure — the
summarizer raising or returning the empty string — leaves the committed
`completed` status and the transcript untouched; the summary fields stay
exactly as they were, and the terminal transition is not blocked (no
exception escapes). -/
theorem claim7_summary_noninterference (p : String) (dOf : String → ℤ)
    (eOf : String → Bool) (cs : List String)
    (adapt : String → Except String Outcome) (summ : Except String String)
    (j : Job)
    (hsum : (∃ m, summ = .error m) ∨ summ = .ok "")
    (hdur : maxChunkSeconds (j.modelName.getD .eboo) < dOf p)
    (hex : ∀ c ∈ cs, eOf c = true)
    (hcd : ∀ c ∈ cs, 1 ≤ dOf c)
    (hnr : ∀ c ∈ cs, ∃ o, adapt c = .ok o)
    (hsome : goodTexts adapt cs ≠ []) :
    (runTask (pipeEnv p dOf eOf cs adapt summ) j).job.status = .completed
    ∧ (runTask (pipeEnv p dOf eOf cs adapt summ) j).job.transcriptText =
        some (String.intercalate "\n\n" (goodTexts adapt cs))
    ∧ (runTask (pipeEnv p dOf eOf cs adapt summ) j).job.summaryText =
        j.summaryText
    ∧ (runTask (pipeEnv p dOf eOf cs adapt summ) j).job.showSummary =
        j.showSummary
    ∧ (runTask (pipeEnv p dOf eOf cs adapt summ) j).job.errorMessage = none
    ∧ (runTask (pipeEnv p dOf eOf cs adapt summ) j).escaped = false := by
  have hb := runBody_pipe_success p dOf eOf cs adapt summ j hdur hex hcd hnr hsome
  rw [sumUpd_failure summ _ hsum] at hb
  simp [runTask, hb]

/-- C7 witness: the summarizer raises; the completed job's status,
transcript and summary fields are untouched. -/
theorem claim7_witness :
    (runTask wEnv7 wJob).job.status = .completed
    ∧ (runTask wEnv7 wJob).job.transcriptText = some "hello\n\nworld"
    ∧ (runTask wEnv7 wJob).job.summaryText = none
    ∧ (runTask wEnv7 wJob).job.showSummary = false
    ∧ (runTask wEnv7 wJob).job.errorMessage = none
    ∧ (runTask wEnv7 wJob).escaped = false := by
  have h := claim7_summary_noninterference "src.wav" wDur (fun _ => true)
    ["c1", "c2", "c3"] wAdapt (.error "summary service down") wJob
    (Or.inl ⟨"summary service down", rfl⟩) (by decide) (by decide) (by decide)
    (by intro c hc; fin_cases hc <;> exact ⟨_, rfl⟩)
    (by decide)
  obtain ⟨h1, h2, h3, h4, h5, h6⟩ := h
  refine ⟨h1, ?_, h3, h4, h5, h6⟩
  have h2x : (runTask wEnv7 wJob).job.transcriptText =
      some (String.intercalate "\n\n" (goodTexts wAdapt ["c1", "c2", "c3"])) := h2
  rw [h2x]
  rfl

/-- When an exception escapes the chunking/transcription steps, the
in-memory record is exactly as it was on entry (the escape points write
nothing). -/
theorem bodyChunks_escaped (env : Env) (j1 : Job) (tp ep : Option String)
    (fp : String) :
    (bodyChunks env j1 tp ep fp).escaped.isSome →
      (bodyChunks env j1 tp ep fp).job = j1 := by
  simp only [bodyChunks]
  split
  · intro _; rfl
  · split
    · intro h; simp at h
    · split
      · intro _; rfl
      · split
        · intro h; simp at h
        · intro h; simp at h

/-- Same fact through the video-extraction step. -/
theorem bodyFrom_escaped (env : Env) (j1 : Job) (tp : Option String)
    (fp0 : String) :
    (bodyFrom env j1 tp fp0).escaped.isSome →
      (bodyFrom env j1 tp fp0).job = j1 := by
  simp only [bodyFrom]
  split
  · split
    · intro h; simp at h
    · exact bodyChunks_escaped env j1 tp _ _
  · exact bodyChunks_escaped env j1 tp none fp0

/-- If an exception escapes the task body, the job record at the outer
handler is either still `processing` (the no-write escape points inside
chunking/transcription, including the re-raised adapter exception) or
already `failed` (the "no source file" raise, which saves `failed`
first); it is never `completed` — and the job row must exist. -/
theorem runBody_escaped (env : Env) (j : Job)
    (h : (runBody env j).escaped.isSome) :
    env.jobExists = true
    ∧ ((runBody env j).job.status = .processing
       ∨ (runBody env j).job.status = .failed) := by
  by_cases hje : env.jobExists = true
  · refine ⟨hje, ?_⟩
    simp only [runBody, hje, Bool.not_true, Bool.false_eq_true, if_false] at h ⊢
    cases hs : env.source with
    | noSource => simp [hs]
    | url dl =>
      cases dl with
      | error e => simp [hs] at h
      | ok tp =>
        simp only [hs] at h ⊢
        rw [bodyFrom_escaped env { j with status := .processing } (some tp) tp h]
        left; rfl
    | localFile p =>
      simp only [hs] at h ⊢
      rw [bodyFrom_escaped env { j with status := .processing } none p h]
      left; rfl
  · exfalso
    simp only [runBody] at h
    rw [if_pos (by simp [Bool.not_eq_true] at hje ⊢; exact hje)] at h
    simp at h

/-- C6.  Whenever an unhandled exception escapes the main processing
steps, the outer handler leaves the job terminal: it forces `failed`
with the generic unexpected-error message exactly when the record was
not already terminal at the catch (and since the record can never be
`completed` there, a completed job is never flipped); a record already
`failed` keeps its fields untouched; and the cleanup/scheduler hand-off
section still runs. -/
theorem claim6_outer_handler (env : Env) (j : Job)
    (h : (runTask env j).escaped = true) :
    (runTask env j).job.status = .failed
    ∧ (runTask env j).preCatch ≠ .completed
    ∧ ((runTask env j).preCatch ≠ .failed →
        (runTask env j).job =
          { (runBody env j).job with
              status := .failed,
              errorMessage := some humanErrUnknown })
    ∧ ((runTask env j).preCatch = .failed →
        (runTask env j).job = (runBody env j).job)
    ∧ (runTask env j).handoffReached = true := by
  have hesc : (runBody env j).escaped.isSome := by
    simpa [runTask] using h
  obtain ⟨hje, hst⟩ := runBody_escaped env j hesc
  obtain ⟨msg, hmsg⟩ := Option.isSome_iff_exists.mp hesc
  have hpre : (runTask env j).preCatch = (runBody env j).job.status := by
    simp [runTask]
  by_cases hfb : (runBody env j).job.status = .failed
  · refine ⟨?_, ?_, ?_, ?_, ?_⟩
    · simp [runTask, hmsg, hfb]
    · rw [hpre, hfb]; simp
    · intro hc; exact absurd (hpre.trans hfb) hc
    · intro _; simp [runTask, hmsg, hfb]
    · simp [runTask, hje]
  · have hproc : (runBody env j).job.status = .processing := hst.resolve_right hfb
    refine ⟨?_, ?_, ?_, ?_, ?_⟩
    · simp [runTask, hmsg, hfb]
    · rw [hpre, hproc]; simp
    · intro _; simp [runTask, hmsg, hfb]
    · intro hc; exact absurd (hpre.symm.trans hc) hfb
    · simp [runTask, hje]

/-- C6 witness: the adapter call raises; the processing job is forced to
`failed` with the generic message, and the hand-off section still runs. -/
theorem claim6_witness :
    (runTask wEnv6 wJob).job.status = .failed
    ∧ (runTask wEnv6 wJob).preCatch ≠ .completed
    ∧ (runTask wEnv6 wJob).handoffReached = true
    ∧ (runTask wEnv6 wJob).job.errorMessage = some humanErrUnknown := by
  have h := claim6_outer_handler wEnv6 wJob (by decide)
  refine ⟨h.1, h.2.1, h.2.2.2.2, ?_⟩
  have hne : (runTask wEnv6 wJob).preCatch ≠ .failed := by decide
  rw [h.2.2.1 hne]

end STT
